import Mathlib

/-!
Verification of the example script
`examples/graph_prediction/ogbg-mol-esol_mincut.py`.

The script is a single straight-line workflow that loads the OGB
`ogbg-molesol` dataset, splits it, assembles a GCN + MinCutPool model,
trains it, and evaluates RMSE on the test split.  Every operational step
is a call into an external library (ogb, tensorflow.keras, spektral), so
the embedding represents the external world as an environment `Env` of
`Except`-valued functions (each call may raise), and the script as a
function from such an environment (plus a command-line argument vector,
which the script never reads) to a run result recording the trace of
external calls, the printed outputs, and the final score.
-/

namespace OgbMolEsol

/-- A graph as exposed by the spektral dataset wrapper: the script only
reads `g.n_nodes` (line 34) and `g.y` (line 83); `y` is one row of
regression targets. -/
structure Graph (V : Type) where
  n_nodes : Nat
  y : List V
  deriving DecidableEq, Repr

/-- The spektral `OGB(ogb_dataset)` wrapper as the script uses it:
iteration over graphs and the four scalar attributes read at
lines 34-37. -/
structure Dataset (V : Type) where
  graphs : List (Graph V)
  n_node_features : Nat
  n_edge_features : Nat
  n_labels : Nat
  deriving DecidableEq, Repr

/-- Result of `ogb_dataset.get_idx_split()` (line 40): the three index
lists `idx["train"]`, `idx["valid"]`, `idx["test"]`. -/
structure Split where
  train : List Nat
  valid : List Nat
  test : List Nat
  deriving DecidableEq, Repr

/-- `dataset[idx]` for a list of indices (lines 41-43): spektral returns
the sub-dataset of the graphs at those indices. -/
def select {V : Type} (gs : List (Graph V)) (idx : List Nat) : List (Graph V) :=
  idx.map fun i => gs.getD i ⟨0, []⟩

/-- `N = max(g.n_nodes for g in dataset)` (line 34): maximum node count
over every graph of the full (unsplit) dataset. -/
def maxNodes {V : Type} (gs : List (Graph V)) : Nat :=
  (gs.map Graph.n_nodes).foldr max 0

/-- Symbolic Keras tensors: the computation graph wired up at
lines 49-58.  `MinCutPool` returns a pair, split here into its two
projections. -/
inductive Tensor : Type
  | input (shape : List (Option Nat))
  | gcnConv (channels : Nat) (activation : String) (x a : Tensor)
  | minCutPoolX (k : Nat) (x a : Tensor)
  | minCutPoolA (k : Nat) (x a : Tensor)
  | globalSumPool (x : Tensor)
  | dense (units : Nat) (x : Tensor)
  deriving DecidableEq, Repr

/-- A layer occurrence, for linearising the main chain of the model. -/
inductive Layer : Type
  | gcnConv (channels : Nat) (activation : String)
  | minCutPool (k : Nat)
  | globalSumPool
  | dense (units : Nat)
  deriving DecidableEq, Repr

/-- The chain of layers applied along the main (node-features) path of a
symbolic tensor, from the input to the tensor itself. -/
def layersOf : Tensor → List Layer
  | .input _ => []
  | .gcnConv c act x _ => layersOf x ++ [.gcnConv c act]
  | .minCutPoolX k x _ => layersOf x ++ [.minCutPool k]
  | .minCutPoolA k x _ => layersOf x ++ [.minCutPool k]
  | .globalSumPool x => layersOf x ++ [.globalSumPool]
  | .dense u x => layersOf x ++ [.dense u]

/-- The cluster counts of the MinCut pooling layers on the main chain. -/
def minCutKs (t : Tensor) : List Nat :=
  (layersOf t).filterMap fun l =>
    match l with
    | .minCutPool k => some k
    | _ => none

/-- The assembled and compiled model (lines 49-61): the functional-API
wiring plus the `compile` configuration `Adam(lr=learning_rate)` and
`loss given as the string mse`. -/
structure ModelSpec where
  inputs : List Tensor
  output : Tensor
  optimizer : String
  lr : ℚ
  loss : String
  deriving DecidableEq, Repr

/-- A `BatchLoader(data, batch_size=..)` call (lines 67, 68, 82):
`epochs` is `none` when the argument is omitted (its library default)
and `some 1` for the test loader. -/
structure LoaderSpec (V : Type) where
  data : List (Graph V)
  batch_size : Nat
  epochs : Option Nat
  deriving DecidableEq, Repr

/-- A Keras callback as the script configures one:
`EarlyStopping(patience=10, restore_best_weights=True)` (line 74). -/
structure Callback where
  kind : String
  patience : Nat
  restore_best_weights : Bool
  deriving DecidableEq, Repr

/-- The full argument list of the `model.fit` call (lines 69-74). -/
structure FitCall (V : Type) where
  train : LoaderSpec V
  steps_per_epoch : Nat
  epochs : Nat
  validation_data : LoaderSpec V
  validation_steps : Nat
  callbacks : List Callback
  deriving DecidableEq, Repr

/-- The five pipeline stages, for stating the temporal shape of a run. -/
inductive StepKind : Type
  | load
  | split
  | build
  | fit
  | predictScore
  deriving DecidableEq, Repr

/-- Trace of the external calls a completed run makes, with their
arguments and results. -/
inductive Event (V : Type) : Type
  | loadData (name : String)
  | splitData (idx_tr idx_va idx_te : List Nat)
  | buildModel (m : ModelSpec)
  | fitModel (f : FitCall V)
  | predictAndScore (evaluatorName : String) (y_true y_pred : List (List V)) (rmse : V)
  deriving DecidableEq, Repr

/-- The pipeline stage an event belongs to. -/
def Event.kind {V : Type} : Event V → StepKind
  | .loadData _ => .load
  | .splitData _ _ _ => .split
  | .buildModel _ => .build
  | .fitModel _ => .fit
  | .predictAndScore _ _ _ _ => .predictScore

/-- One printed output of the script: the `model.summary()` table
(line 62), a plain `print` line, or the final line
`Done. RMSE:` followed by the score formatted to four decimals
(line 85), modelled as
carrying the score value it renders. -/
inductive Out (V : Type) : Type
  | summary (m : ModelSpec)
  | line (s : String)
  | rmseScore (v : V)
  deriving DecidableEq, Repr

/-- Everything observable about a completed run. -/
structure RunResult (V : Type) where
  events : List (Event V)
  printed : List (Out V)
  model : ModelSpec
  fitCall : FitCall V
  finalScore : V
  deriving DecidableEq, Repr

/-- The external world.  `E` is the (opaque) type of library exceptions,
`R` the (opaque) type of the raw `GraphPropPredDataset` object, `V` the
(opaque) numeric scalar type.  Each field is one external entry point the
script calls; a fallible one returns `Except E`. -/
structure Env (E R V : Type) where
  /-- `GraphPropPredDataset(name=dataset_name)` (line 30): may fail
  (missing dataset, download error). -/
  graphPropPredDataset : String → Except E R
  /-- `OGB(ogb_dataset)` (line 31): the spektral wrapper, whose code is
  outside the sources of this repository; modelled as an opaque conversion. -/
  ogb : R → Dataset V
  /-- `ogb_dataset.get_idx_split()` (line 40). -/
  get_idx_split : R → Except E Split
  /-- `loader.steps_per_epoch` (lines 70, 73): a property of the
  spektral `BatchLoader`, whose code is outside the sources of this
  repository; modelled as an opaque function of the loader. -/
  stepsPerEpoch : LoaderSpec V → Nat
  /-- `model.fit(...)` (lines 69-74): may fail (shape mismatch, OOM). -/
  fit : FitCall V → Except E Unit
  /-- `model.predict(loader_te, batch_size=batch_size)` (line 82). -/
  predict : LoaderSpec V → Nat → Except E (List (List V))
  /-- The evaluator call at lines 80 and 84: building `Evaluator` with a
  dataset name, calling `eval` on the dict of y_true and y_pred, and
  reading the rmse entry of the returned dict; modelled as one call
  giving the rmse result of the benchmark evaluator on the two
  arrays, keyed by the dataset name the evaluator was built with. -/
  evaluatorEval : String → List (List V) → List (List V) → Except E V

-- Lines 22-24: the three in-file configuration constants.
def learning_rate : ℚ := 1 / 1000
def epochs : Nat := 10
def batch_size : Nat := 32

-- Line 29.
def dataset_name : String := "ogbg-molesol"

/-- Lines 49-61: the functional-API model.
`X_in = Input(shape=(None, F))`, `A_in = Input(shape=(None, None))`,
then GCNConv(32, relu) -> MinCutPool(N div 2) -> GCNConv(32, relu) ->
GlobalSumPool -> Dense(n_out), compiled with `Adam(lr=learning_rate)`
and `loss given as the string mse`. -/
def buildMincutModel (F n_out N : Nat) : ModelSpec :=
  let X_in := Tensor.input [none, some F]
  let A_in := Tensor.input [none, none]
  let X_1 := Tensor.gcnConv 32 "relu" X_in A_in
  let X_1p := Tensor.minCutPoolX (N / 2) X_1 A_in
  let A_1 := Tensor.minCutPoolA (N / 2) X_1 A_in
  let X_2 := Tensor.gcnConv 32 "relu" X_1p A_1
  let X_3 := Tensor.globalSumPool X_2
  let output := Tensor.dense n_out X_3
  { inputs := [X_in, A_in], output := output,
    optimizer := "Adam", lr := learning_rate, loss := "mse" }

/-- Lines 67-74: the two training loaders and the exact argument list of
`model.fit`. -/
def fitCallOf {V : Type} (stepsPerEpoch : LoaderSpec V → Nat)
    (dataset_tr dataset_va : List (Graph V)) : FitCall V :=
  let loader_tr : LoaderSpec V := ⟨dataset_tr, batch_size, none⟩
  let loader_va : LoaderSpec V := ⟨dataset_va, batch_size, none⟩
  { train := loader_tr,
    steps_per_epoch := stepsPerEpoch loader_tr,
    epochs := epochs,
    validation_data := loader_va,
    validation_steps := stepsPerEpoch loader_va,
    callbacks := [⟨"EarlyStopping", 10, true⟩] }

/-- The whole script, top to bottom.  `argv` is the process argument
vector; the script reads no command-line arguments, so `argv` is never
consulted.  Each `match` is one fallible external call; a raised
exception propagates out unchanged (the script installs no handler). -/
def script {E R V : Type} (env : Env E R V) (argv : List String) :
    Except E (RunResult V) :=
  match env.graphPropPredDataset dataset_name with   -- line 30
  | .error e => .error e
  | .ok ogb_dataset =>
    let dataset := env.ogb ogb_dataset               -- line 31
    let N := maxNodes dataset.graphs                 -- line 34
    let F := dataset.n_node_features                 -- line 35
    let n_out := dataset.n_labels                    -- line 37
    match env.get_idx_split ogb_dataset with         -- line 40
    | .error e => .error e
    | .ok idx =>
      let dataset_tr := select dataset.graphs idx.train   -- line 41
      let dataset_va := select dataset.graphs idx.valid   -- line 42
      let dataset_te := select dataset.graphs idx.test    -- line 43
      let model := buildMincutModel F n_out N             -- lines 49-61
      let fc := fitCallOf env.stepsPerEpoch dataset_tr dataset_va
      match env.fit fc with                          -- lines 69-74
      | .error e => .error e
      | .ok _ =>
        let loader_te : LoaderSpec V := ⟨dataset_te, batch_size, some 1⟩
        match env.predict loader_te batch_size with  -- line 82
        | .error e => .error e
        | .ok y_pred =>
          let y_true := dataset_te.map Graph.y       -- line 83
          match env.evaluatorEval dataset_name y_true y_pred with -- line 84
          | .error e => .error e
          | .ok ogb_score =>
            .ok { events := [.loadData dataset_name,
                             .splitData idx.train idx.valid idx.test,
                             .buildModel model,
                             .fitModel fc,
                             .predictAndScore dataset_name y_true y_pred ogb_score],
                  printed := [.summary model,         -- line 62
                              .line "Testing model",  -- line 79
                              .rmseScore ogb_score],  -- line 85
                  model := model,
                  fitCall := fc,
                  finalScore := ogb_score }

/-- The run result a successful run assembles, given the outcomes of the
external calls. -/
def resultOf {E R V : Type} (env : Env E R V) (raw : R) (idx : Split)
    (y_pred : List (List V)) (score : V) : RunResult V :=
  let dataset := env.ogb raw
  let model := buildMincutModel dataset.n_node_features dataset.n_labels
    (maxNodes dataset.graphs)
  let fc := fitCallOf env.stepsPerEpoch (select dataset.graphs idx.train)
    (select dataset.graphs idx.valid)
  let y_true := (select dataset.graphs idx.test).map Graph.y
  { events := [.loadData dataset_name,
               .splitData idx.train idx.valid idx.test,
               .buildModel model,
               .fitModel fc,
               .predictAndScore dataset_name y_true y_pred score],
    printed := [.summary model, .line "Testing model", .rmseScore score],
    model := model,
    fitCall := fc,
    finalScore := score }

/-- Characterisation of a completed run: it is exactly a run in which the
five fallible external calls all succeeded, and the result records their
outcomes. -/
lemma script_ok {E R V : Type} {env : Env E R V} {argv : List String}
    {r : RunResult V} (h : script env argv = .ok r) :
    ∃ raw idx y_pred score,
      env.graphPropPredDataset dataset_name = .ok raw ∧
      env.get_idx_split raw = .ok idx ∧
      env.fit (fitCallOf env.stepsPerEpoch (select (env.ogb raw).graphs idx.train)
        (select (env.ogb raw).graphs idx.valid)) = .ok () ∧
      env.predict ⟨select (env.ogb raw).graphs idx.test, batch_size, some 1⟩
        batch_size = .ok y_pred ∧
      env.evaluatorEval dataset_name
        ((select (env.ogb raw).graphs idx.test).map Graph.y) y_pred = .ok score ∧
      r = resultOf env raw idx y_pred score := by
  unfold script at h
  split at h
  · exact Except.noConfusion h
  rename_i raw hload
  split at h
  · exact Except.noConfusion h
  rename_i idx hidx
  dsimp only at h
  split at h
  · exact Except.noConfusion h
  rename_i u hfit
  split at h
  · exact Except.noConfusion h
  rename_i y_pred hpred
  split at h
  · exact Except.noConfusion h
  rename_i score heval
  injection h with h
  subst h
  exact ⟨raw, idx, y_pred, score, hload, hidx, hfit, hpred, heval, rfl⟩

/-! Concrete environments used to exercise the script on closed inputs.
`E := Nat` (error codes), `R := Unit` (raw dataset object), `V := Int`
(scalar values). -/

/-- A small concrete dataset: three graphs with 3, 5 and 8 nodes. -/
def gOK : List (Graph Int) := [⟨3, [1]⟩, ⟨5, [2]⟩, ⟨8, [3]⟩]

def dsOK : Dataset Int := ⟨gOK, 9, 3, 1⟩

/-- Split putting graph 0 in train, graph 1 in validation, graph 2 in
test. -/
def splitOK : Split := ⟨[0], [1], [2]⟩

/-- An environment in which every external call succeeds. -/
def envOK : Env Nat Unit Int :=
  { graphPropPredDataset := fun _ => .ok (),
    ogb := fun _ => dsOK,
    get_idx_split := fun _ => .ok splitOK,
    stepsPerEpoch := fun l => l.data.length,
    fit := fun _ => .ok (),
    predict := fun _ _ => .ok [[2]],
    evaluatorEval := fun _ _ _ => .ok 7 }

/-- The run result the script produces under `envOK`. -/
def runOK : RunResult Int := resultOf envOK () splitOK [[2]] 7

lemma envOK_run : script envOK [] = .ok runOK := rfl

/-- Same dataset as `dsOK` except that the graph at the test index has
20 nodes instead of 8; train and validation graphs are identical. -/
def dsBig : Dataset Int := ⟨[⟨3, [1]⟩, ⟨5, [2]⟩, ⟨20, [3]⟩], 9, 3, 1⟩

/-- `envOK` with only the held-out (test) graph changed. -/
def envBig : Env Nat Unit Int :=
  { envOK with ogb := fun _ => dsBig }

/-- Modelled from the spec: the Keras `EarlyStopping` callback installed
at line 74 is external-library code, not part of the sources of this
repository; the spec describes it only as an early-stopping callback of
the training loop.  Standard documented semantics, min mode: after each
epoch the monitored value is compared with the best value seen so far
(initially none, so the first epoch always counts as an improvement); on
improvement the best is updated and the wait counter resets to zero,
otherwise the counter increments; training stops after the first epoch
at which the counter has reached `patience`.  `esRun patience best wait
losses` returns how many of the scheduled epochs (one entry of `losses`
per epoch, in order) actually run. -/
def esRun (patience : Nat) : Option ℚ → Nat → List ℚ → Nat
  | _, _, [] => 0
  | none, _, l :: ls =>
      if patience = 0 then 1 else 1 + esRun patience (some l) 0 ls
  | some b, wait, l :: ls =>
      if l < b then
        (if patience = 0 then 1 else 1 + esRun patience (some l) 0 ls)
      else
        (if patience ≤ wait + 1 then 1 else 1 + esRun patience (some b) (wait + 1) ls)

/-- Epochs actually trained when `EarlyStopping` with the given patience
watches the given per-epoch monitored values. -/
def trainedEpochs (patience : Nat) (losses : List ℚ) : Nat :=
  esRun patience none 0 losses

lemma esRun_some_of_le {p : Nat} :
    ∀ (ls : List ℚ) (b : ℚ) (wait : Nat), wait + ls.length ≤ p →
      esRun p (some b) wait ls = ls.length := by
  intro ls
  induction ls with
  | nil => intro b wait _; rfl
  | cons l ls ih =>
    intro b wait h
    simp only [List.length_cons] at h
    unfold esRun
    by_cases hlt : l < b
    · rw [if_pos hlt, if_neg (by omega)]
      rw [ih l 0 (by omega)]
      simp [List.length_cons, Nat.add_comm]
    · rw [if_neg hlt]
      by_cases hstop : p ≤ wait + 1
      · rw [if_pos hstop]
        have hnil : ls.length = 0 := by omega
        simp [List.length_cons, hnil]
      · rw [if_neg hstop, ih b (wait + 1) (by omega)]
        simp only [List.length_cons]
        omega

lemma trainedEpochs_eq_of_le {p : Nat} (ls : List ℚ) (h : ls.length ≤ p) :
    trainedEpochs p ls = ls.length := by
  cases ls with
  | nil => rfl
  | cons l ls =>
    simp only [List.length_cons] at h
    unfold trainedEpochs esRun
    rw [if_neg (by omega), esRun_some_of_le ls l 0 (by omega)]
    simp only [List.length_cons]
    omega

/-- An environment whose dataset loading fails with error code 42. -/
def envFail : Env Nat Unit Int :=
  { envOK with graphPropPredDataset := fun _ => .error 42 }

/-- The dataset name a load event carries, if the event is a load. -/
def Event.loadedName {V : Type} : Event V → Option String
  | .loadData n => some n
  | _ => none

/-- The evaluator name a scoring event carries, if the event is the
prediction-and-scoring step. -/
def Event.scoredName {V : Type} : Event V → Option String
  | .predictAndScore n _ _ _ => some n
  | _ => none

/-! ## Claim theorems -/

/-- C1: the script is a single linear workflow executing, in order,
dataset loading, train/validation/test split, model assembly,
training-loop invocation, and prediction with scoring; in every run
that completes no step is skipped, repeated, or reordered. -/
theorem esol_pipeline_order (E R V : Type) (env : Env E R V)
    (argv : List String) (r : RunResult V) (h : script env argv = .ok r) :
    r.events.map Event.kind =
      [.load, .split, .build, .fit, .predictScore] := by
  obtain ⟨raw, idx, y_pred, score, -, -, -, -, -, hr⟩ := script_ok h
  subst hr
  rfl

theorem esol_pipeline_order_witness :
    runOK.events.map Event.kind =
      [.load, .split, .build, .fit, .predictScore] :=
  esol_pipeline_order Nat Unit Int envOK [] runOK envOK_run

/-- C2: in every completed run, the final printed score is the rmse
result the benchmark evaluator returns on exactly the test-split
predictions and the test-split ground-truth targets. -/
theorem esol_final_score_is_evaluator_rmse (E R V : Type)
    (env : Env E R V) (argv : List String) (r : RunResult V)
    (h : script env argv = .ok r) :
    ∃ raw idx y_pred,
      env.graphPropPredDataset dataset_name = .ok raw ∧
      env.get_idx_split raw = .ok idx ∧
      env.predict ⟨select (env.ogb raw).graphs idx.test, batch_size, some 1⟩
        batch_size = .ok y_pred ∧
      env.evaluatorEval dataset_name
        ((select (env.ogb raw).graphs idx.test).map Graph.y) y_pred =
        .ok r.finalScore ∧
      r.printed.getLast? = some (.rmseScore r.finalScore) := by
  obtain ⟨raw, idx, y_pred, score, h1, h2, h3, h4, h5, hr⟩ := script_ok h
  subst hr
  exact ⟨raw, idx, y_pred, h1, h2, h4, h5, rfl⟩

theorem esol_final_score_is_evaluator_rmse_witness :
    runOK.printed.getLast? = some (.rmseScore runOK.finalScore) := by
  obtain ⟨raw, idx, y_pred, -, -, -, -, h5⟩ :=
    esol_final_score_is_evaluator_rmse Nat Unit Int envOK [] runOK envOK_run
  exact h5

/-- C3, counterexample: a completed run prints three outputs, not two —
besides the model summary and the final score the script also prints the
status line `Testing model` (line 79). -/
theorem esol_printed_outputs_counterexample :
    script envOK [] = .ok runOK ∧
    Out.line "Testing model" ∈ runOK.printed ∧
    runOK.printed.length = 3 :=
  ⟨envOK_run, by simp [runOK, resultOf], rfl⟩

/-- C3, amended: the printed outputs of every completed run are exactly
three — the model summary printed during construction, the status line
`Testing model`, and the final evaluation score. -/
theorem esol_printed_outputs (E R V : Type) (env : Env E R V)
    (argv : List String) (r : RunResult V) (h : script env argv = .ok r) :
    r.printed =
      [.summary r.model, .line "Testing model", .rmseScore r.finalScore] := by
  obtain ⟨raw, idx, y_pred, score, -, -, -, -, -, hr⟩ := script_ok h
  subst hr
  rfl

theorem esol_printed_outputs_witness :
    runOK.printed =
      [.summary runOK.model, .line "Testing model",
       .rmseScore runOK.finalScore] :=
  esol_printed_outputs Nat Unit Int envOK [] runOK envOK_run

/-- C4: the in-file configuration constants are a learning rate of
1/1000, an epoch count of 10 and a batch size of 32, and the script
never reads its argument vector, so any two invocations against the same
environment behave identically regardless of arguments. -/
theorem esol_config_and_no_arguments :
    (∀ (E R V : Type) (env : Env E R V) (a b : List String),
        script env a = script env b) ∧
    learning_rate = 1 / 1000 ∧ epochs = 10 ∧ batch_size = 32 :=
  ⟨fun _ _ _ _ _ _ => rfl, rfl, rfl, rfl⟩

/-- C5: in every completed run, the training routine is invoked with a
batch loader over the train split and one over the validation split,
both with the configured batch size, the steps-per-epoch values taken
from those loaders, the configured epoch count, and a single
early-stopping callback — and nothing else. -/
theorem esol_fit_arguments (E R V : Type) (env : Env E R V)
    (argv : List String) (r : RunResult V) (h : script env argv = .ok r) :
    ∃ raw idx,
      env.graphPropPredDataset dataset_name = .ok raw ∧
      env.get_idx_split raw = .ok idx ∧
      r.fitCall.train =
        ⟨select (env.ogb raw).graphs idx.train, batch_size, none⟩ ∧
      r.fitCall.steps_per_epoch = env.stepsPerEpoch r.fitCall.train ∧
      r.fitCall.epochs = epochs ∧
      r.fitCall.validation_data =
        ⟨select (env.ogb raw).graphs idx.valid, batch_size, none⟩ ∧
      r.fitCall.validation_steps =
        env.stepsPerEpoch r.fitCall.validation_data ∧
      r.fitCall.callbacks = [⟨"EarlyStopping", 10, true⟩] := by
  obtain ⟨raw, idx, y_pred, score, h1, h2, -, -, -, hr⟩ := script_ok h
  subst hr
  exact ⟨raw, idx, h1, h2, rfl, rfl, rfl, rfl, rfl, rfl⟩

theorem esol_fit_arguments_witness :
    runOK.fitCall.epochs = epochs ∧
    runOK.fitCall.callbacks = [⟨"EarlyStopping", 10, true⟩] := by
  obtain ⟨raw, idx, -, -, -, -, h5, -, -, h8⟩ :=
    esol_fit_arguments Nat Unit Int envOK [] runOK envOK_run
  exact ⟨h5, h8⟩

/-- C6: in every completed run, the assembled model is the chain
GCNConv(32, relu) → MinCutPool(N div 2) → GCNConv(32, relu) →
GlobalSumPool → Dense(n_out), compiled with the Adam optimizer at the
configured learning rate and mean-squared-error loss. -/
theorem esol_model_architecture (E R V : Type) (env : Env E R V)
    (argv : List String) (r : RunResult V) (h : script env argv = .ok r) :
    ∃ raw,
      env.graphPropPredDataset dataset_name = .ok raw ∧
      layersOf r.model.output =
        [.gcnConv 32 "relu",
         .minCutPool (maxNodes (env.ogb raw).graphs / 2),
         .gcnConv 32 "relu",
         .globalSumPool,
         .dense (env.ogb raw).n_labels] ∧
      r.model.optimizer = "Adam" ∧
      r.model.lr = learning_rate ∧
      r.model.loss = "mse" := by
  obtain ⟨raw, idx, y_pred, score, h1, -, -, -, -, hr⟩ := script_ok h
  subst hr
  exact ⟨raw, h1, rfl, rfl, rfl, rfl⟩

theorem esol_model_architecture_witness :
    layersOf runOK.model.output =
      [.gcnConv 32 "relu", .minCutPool 4, .gcnConv 32 "relu",
       .globalSumPool, .dense 1] ∧
    runOK.model.optimizer = "Adam" ∧ runOK.model.loss = "mse" := by
  obtain ⟨raw, -, h2, h3, -, h5⟩ :=
    esol_model_architecture Nat Unit Int envOK [] runOK envOK_run
  cases raw
  exact ⟨h2, h3, h5⟩

/-- C7: the script installs no exception handler: a failure raised by
any of the five fallible external calls (dataset loading, split lookup,
training, prediction, evaluation) propagates out of the script
unchanged. -/
theorem esol_error_propagation (E R V : Type) (env : Env E R V)
    (argv : List String) (e : E) :
    (env.graphPropPredDataset dataset_name = .error e →
      script env argv = .error e) ∧
    (∀ raw, env.graphPropPredDataset dataset_name = .ok raw →
      ((env.get_idx_split raw = .error e → script env argv = .error e) ∧
       ∀ idx, env.get_idx_split raw = .ok idx →
         (let fc := fitCallOf env.stepsPerEpoch
            (select (env.ogb raw).graphs idx.train)
            (select (env.ogb raw).graphs idx.valid)
          let loader_te : LoaderSpec V :=
            ⟨select (env.ogb raw).graphs idx.test, batch_size, some 1⟩
          let y_true := (select (env.ogb raw).graphs idx.test).map Graph.y
          (env.fit fc = .error e → script env argv = .error e) ∧
          (env.fit fc = .ok () →
            ((env.predict loader_te batch_size = .error e →
               script env argv = .error e) ∧
             ∀ y_pred, env.predict loader_te batch_size = .ok y_pred →
               (env.evaluatorEval dataset_name y_true y_pred = .error e →
                 script env argv = .error e)))))) := by
  constructor
  · intro h1
    simp [script, h1]
  · intro raw h1
    constructor
    · intro h2
      simp [script, h1, h2]
    · intro idx h2
      dsimp only
      refine ⟨fun h3 => ?_, fun h3 => ⟨fun h4 => ?_, fun y_pred h4 h5 => ?_⟩⟩
      · simp [script, h1, h2, h3]
      · simp [script, h1, h2, h3, h4]
      · simp [script, h1, h2, h3, h4, h5]

theorem esol_error_propagation_witness :
    script envFail [] = .error 42 :=
  (esol_error_propagation Nat Unit Int envFail [] 42).1 rfl

/-- C8: in every completed run, the single MinCutPool layer of the model
receives N div 2 clusters where N is the maximum node count over every
graph of the full (unsplit) dataset — so the architecture changes when
only a held-out (test-split) graph changes, as the two concrete
environments `envOK` and `envBig` (identical train and validation
graphs, different test graph) show. -/
theorem esol_mincut_clusters :
    (∀ (E R V : Type) (env : Env E R V) (argv : List String)
        (r : RunResult V) (raw : R),
        script env argv = .ok r →
        env.graphPropPredDataset dataset_name = .ok raw →
        minCutKs r.model.output = [maxNodes (env.ogb raw).graphs / 2]) ∧
    (script envOK []).map (fun r => minCutKs r.model.output) = .ok [4] ∧
    (script envBig []).map (fun r => minCutKs r.model.output) = .ok [10] := by
  refine ⟨?_, rfl, rfl⟩
  intro E R V env argv r raw h hraw
  obtain ⟨raw2, idx, y_pred, score, h1, -, -, -, -, hr⟩ := script_ok h
  subst hr
  rw [hraw] at h1
  injection h1 with h1
  subst h1
  rfl

theorem esol_mincut_clusters_witness :
    minCutKs runOK.model.output = [4] :=
  esol_mincut_clusters.1 Nat Unit Int envOK [] runOK () envOK_run rfl

/-- C9: the early-stopping callback is configured with patience 10 while
the scheduled epoch count is also 10, and under the standard
early-stopping semantics a schedule of at most `patience` epochs always
runs in full (the first epoch necessarily improves on an empty history,
so at most nine non-improving epochs remain — fewer than the patience),
so every completed run trains for the full epoch count. -/
theorem esol_early_stopping_never_fires :
    (∀ (E R V : Type) (env : Env E R V) (argv : List String)
        (r : RunResult V), script env argv = .ok r →
        r.fitCall.callbacks = [⟨"EarlyStopping", 10, true⟩] ∧
        r.fitCall.epochs = epochs ∧ epochs = 10) ∧
    (∀ losses : List ℚ, losses.length ≤ 10 →
        trainedEpochs 10 losses = losses.length) := by
  constructor
  · intro E R V env argv r h
    obtain ⟨raw, idx, y_pred, score, -, -, -, -, -, hr⟩ := script_ok h
    subst hr
    exact ⟨rfl, rfl, rfl⟩
  · intro losses h
    exact trainedEpochs_eq_of_le losses h

theorem esol_early_stopping_never_fires_witness :
    runOK.fitCall.callbacks = [⟨"EarlyStopping", 10, true⟩] ∧
    trainedEpochs 10 [3, 2, 9, 9, 9, 9, 9, 9, 9, 9] = 10 := by
  refine ⟨(esol_early_stopping_never_fires.1 Nat Unit Int envOK [] runOK
    envOK_run).1, ?_⟩
  have h := esol_early_stopping_never_fires.2
    [3, 2, 9, 9, 9, 9, 9, 9, 9, 9] (by simp)
  simpa using h

/-- C10: the dataset identifier handed to the dataset loader and the one
handed to the evaluator are the same string, `ogbg-molesol`, in every
completed run. -/
theorem esol_dataset_name_consistency (E R V : Type) (env : Env E R V)
    (argv : List String) (r : RunResult V) (h : script env argv = .ok r) :
    r.events.head?.bind Event.loadedName = some dataset_name ∧
    r.events.getLast?.bind Event.scoredName = some dataset_name ∧
    dataset_name = "ogbg-molesol" := by
  obtain ⟨raw, idx, y_pred, score, -, -, -, -, -, hr⟩ := script_ok h
  subst hr
  exact ⟨rfl, rfl, rfl⟩

theorem esol_dataset_name_consistency_witness :
    runOK.events.head?.bind Event.loadedName = some dataset_name ∧
    runOK.events.getLast?.bind Event.scoredName = some dataset_name :=
  ⟨(esol_dataset_name_consistency Nat Unit Int envOK [] runOK envOK_run).1,
   (esol_dataset_name_consistency Nat Unit Int envOK [] runOK envOK_run).2.1⟩

end OgbMolEsol
